import Mathlib

/-!
Verification of the publishing-pipeline core of the tube-auto-publisher
repository.  The JavaScript sources are shallowly embedded as executable
Lean definitions: the Notion record store is a list of `NotionPage`
values, Google-Drive inventory items are `DriveFile`/`DriveVideo` values,
network responses to download candidates are an explicit oracle list, and
each source function becomes a pure function over these data.
-/

/-! ## String helpers shared by several source files -/

/-- Character class `[a-zA-Z0-9-_]` used by every Drive-id pattern in
`src/utils/drive-downloader.js` and by the `validIdPattern` check in
`src/2downloadvideo.js`. -/
def isIdChar (c : Char) : Bool :=
  (('a' ≤ c && c ≤ 'z') || ('A' ≤ c && c ≤ 'Z') || ('0' ≤ c && c ≤ '9') || c == '-' || c == '_')

/-- Occurrence test over character lists; models `String.prototype.includes`. -/
def listIncludes (needle : List Char) : List Char → Bool
  | [] => needle.isEmpty
  | c :: rest => needle.isPrefixOf (c :: rest) || listIncludes needle rest

/-- Models the JavaScript expression `hay.includes(needle)`. -/
def strIncludes (hay needle : String) : Bool :=
  listIncludes needle.data hay.data

/-! ## `extractFileIdFromUrl` (src/utils/drive-downloader.js, lines 25-46)

Each regular expression there is a literal prefix followed by a capture
group `([a-zA-Z0-9-_]+)`.  `capturesAt` models the regex engine's scan:
the leftmost position where the literal matches and is followed by at
least one id character wins, and the capture is the maximal id-run. -/

def capturesAt (lit : List Char) : List Char → Option (List Char)
  | [] => none
  | c :: rest =>
    if lit.isPrefixOf (c :: rest) then
      let run := ((c :: rest).drop lit.length).takeWhile isIdChar
      if run.isEmpty then capturesAt lit rest else some run
    else capturesAt lit rest

/-- Models the bare-id pattern `^([a-zA-Z0-9-_]+)$`. -/
def bareIdCapture (cs : List Char) : Option (List Char) :=
  if !cs.isEmpty && cs.all isIdChar then some cs else none

/-- Models `extractFileIdFromUrl`: try the five URL patterns in order,
returning the capture of the first one that matches (`none` models the
thrown error when no pattern matches). -/
def extractFileIdFromUrl (url : String) : Option String :=
  (match capturesAt "/file/d/".data url.data with
   | some r => some r
   | none =>
   match capturesAt "/open?id=".data url.data with
   | some r => some r
   | none =>
   match capturesAt "/d/".data url.data with
   | some r => some r
   | none =>
   match capturesAt "id=".data url.data with
   | some r => some r
   | none => bareIdCapture url.data).map fun r => String.mk r

/-! ## `extractAndValidateDriveId` (src/2downloadvideo.js, lines 82-108) -/

/-- Models `extractAndValidateDriveId`: extract an id, then reject ids
that are falsy or shorter than 20 characters, then reject ids failing
`/^[a-zA-Z0-9_-]+$/`.  `none` models a thrown error. -/
def extractAndValidateDriveId (driveLink : String) : Option String :=
  match extractFileIdFromUrl driveLink with
  | none => none
  | some fileId =>
    if fileId == "" || fileId.length < 20 then none
    else if !fileId.data.isEmpty && fileId.data.all isIdChar then some fileId
    else none

/-! ## `downloadFromDrive` (src/utils/drive-downloader.js, lines 126-285)

The network is abstracted as one oracle response per candidate URL. -/

/-- Outcome of streaming one response body to the local sink. -/
inductive StreamOutcome where
  | failed
  | done (size : Nat)
deriving DecidableEq

/-- What one candidate URL answered: the request itself threw
(timeout, non-2xx/3xx status, connection error), or an HTTP response with
a declared content type and a stream outcome. -/
inductive CandResponse where
  | netError
  | http (contentType : String) (stream : StreamOutcome)
deriving DecidableEq

/-- Failure modes of the download loop.  `allUrlsFailed` is the generic
`Todas as URLs de download falharam` error thrown after the loop;
the others correspond to errors thrown inside a candidate attempt.
`markupPage` is never produced by the code; it exists so the
spec's notion of a per-candidate failure (see `specCandidateFailure`)
can be stated. -/
inductive DLError where
  | invalidUrl
  | requestFailed
  | streamFailed
  | emptyFile
  | markupPage
  | allUrlsFailed
deriving DecidableEq

structure DownloadPayload where
  filePath : String
  fileName : String
  fileSize : Nat
  mimeType : String
deriving DecidableEq

instance {ε α : Type} [DecidableEq ε] [DecidableEq α] : DecidableEq (Except ε α)
  | .error x, .error y => decidable_of_iff (x = y) (by simp)
  | .error _, .ok _ => isFalse (by simp)
  | .ok _, .error _ => isFalse (by simp)
  | .ok x, .ok y => decidable_of_iff (x = y) (by simp)

/-- The content-type sniff `contentType.includes('text/html')`. -/
def htmlLike (ct : String) : Bool :=
  strIncludes ct "text/html"

/-- The success payload built at lines 251-257 of drive-downloader.js:
a generic name `video_<id>.mp4` in the temp folder, the written size, and
a hard-coded mime type. -/
def mkPayload (fileId : String) (size : Nat) : DownloadPayload :=
  { filePath := "temp/video_" ++ fileId ++ ".mp4"
  , fileName := "video_" ++ fileId ++ ".mp4"
  , fileSize := size
  , mimeType := "video/mp4" }

/-- The candidate loop of `downloadFromDrive`.  A markup content type hits
`continue` without recording an error; a request error, stream error or
zero-byte file is rethrown when it happens on the last candidate and
otherwise advances to the next candidate; when the loop ends without a
success the generic exhaustion error is thrown. -/
def tryCandidates (fileId : String) : List CandResponse → Except DLError DownloadPayload
  | [] => .error .allUrlsFailed
  | r :: rest =>
    match r with
    | .netError =>
      if rest.isEmpty then .error .requestFailed else tryCandidates fileId rest
    | .http ct s =>
      if htmlLike ct then tryCandidates fileId rest
      else
        match s with
        | .failed =>
          if rest.isEmpty then .error .streamFailed else tryCandidates fileId rest
        | .done size =>
          if size == 0 then
            if rest.isEmpty then .error .emptyFile else tryCandidates fileId rest
          else .ok (mkPayload fileId size)

/-- The four candidate transport URLs built for a file id (lines 146-151). -/
def downloadUrls (fileId : String) : List String :=
  [ "https://drive.google.com/uc?export=download&id=" ++ fileId
  , "https://docs.google.com/uc?export=download&id=" ++ fileId
  , "https://drive.usercontent.google.com/download?id=" ++ fileId ++ "&export=download"
  , "https://drive.google.com/uc?id=" ++ fileId ++ "&export=download" ]

/-- Models `downloadFromDrive`: extract the file id, then run the
candidate loop against the oracle of per-candidate responses (one entry
per URL of `downloadUrls`, in order). -/
def downloadFromDrive (driveUrl : String) (responses : List CandResponse) :
    Except DLError DownloadPayload :=
  match extractFileIdFromUrl driveUrl with
  | none => .error .invalidUrl
  | some fileId => tryCandidates fileId responses

/-- Modelled from the spec: the failure the spec ascribes to one failing
candidate ("fail with FetchExhausted carrying the last candidate's
error").  A markup response's own failure is the markup rejection; this
is compared against what the code actually throws. -/
def specCandidateFailure : CandResponse → DLError
  | .netError => .requestFailed
  | .http ct .failed => if htmlLike ct then .markupPage else .streamFailed
  | .http ct (.done _) => if htmlLike ct then .markupPage else .emptyFile

/-- A candidate that the spec sentence of C3 quantifies over: it answered
with a markup content type, or its body streamed to zero bytes. -/
def markupOrEmpty : CandResponse → Bool
  | .netError => false
  | .http ct .failed => htmlLike ct
  | .http ct (.done n) => htmlLike ct || n == 0

/-- The error `downloadFromDrive` actually ends with when every candidate
was markup or zero-byte: the generic exhaustion error if the last
candidate was markup, else the last candidate's own empty-file error. -/
def exhaustError : CandResponse → DLError
  | .netError => .requestFailed
  | .http ct .failed => if htmlLike ct then .allUrlsFailed else .streamFailed
  | .http ct (.done _) => if htmlLike ct then .allUrlsFailed else .emptyFile

/-! ## The Notion record store

One structure holds every database property the sources read or write.
A rich-text or URL property is a `String`, with `""` standing for an
absent/empty value (which is falsy in the JavaScript guards); date
properties are `Option Int` timestamps; the file-size number (which the
code fills with a value rounded to two decimals) is held in hundredths of
a megabyte; the upload duration (an exact-rational idealisation of the
JavaScript float) is a rational. -/

structure NotionPage where
  pageId : String := ""
  title : String := ""
  driveLink : String := ""
  description : String := ""
  tags : String := ""
  category : String := ""
  privacy : String := ""
  status : String := ""
  fileSizeMBHundredths : Nat := 0
  driveCreated : Option Int := none
  youtubeUrl : String := ""
  videoId : String := ""
  thumbnailUrl : String := ""
  uploadDate : Option Int := none
  uploadTimeSeconds : ℚ := 0
  finalPrivacy : String := ""
  errorMessage : String := ""
  errorDate : Option Int := none
  attempts : Nat := 0
  lastAttempt : Option Int := none
deriving DecidableEq

/-- Models `Math.round (a / b)` on non-negative integers:
`floor (a / b + 1/2) = (2 * a + b) / (2 * b)`. -/
def roundDiv (a b : Nat) : Nat :=
  (2 * a + b) / (2 * b)

/-! ## `5syncgdrive.js`: the Reconciler -/

/-- A raw file listed from the Drive folder. -/
structure DriveFile where
  id : String := ""
  name : String := ""
  mimeType : String := "video/mp4"
  size : Nat := 0
  createdTime : Int := 0
deriving DecidableEq

/-- Models `video.name.replace(/\.[^/.]+$/, "")`: drop a trailing
extension (a final dot followed by one or more characters none of which
is a dot or a slash). -/
def stripExtension (name : String) : String :=
  let rev := name.data.reverse
  let ext := rev.takeWhile fun c => !(c == '.' || c == '/')
  match rev.drop ext.length with
  | '.' :: restRev => if ext.isEmpty then name else String.mk restRev.reverse
  | _ => name

/-- The canonical shareable link derived from a Drive file id
(line 87 of 5syncgdrive.js). -/
def shareableLink (id : String) : String :=
  "https://drive.google.com/file/d/" ++ id ++ "/view?usp=sharing"

/-- A processed inventory item as produced by `getVideosFromDrive`. -/
structure DriveVideo where
  id : String
  name : String
  originalName : String
  mimeType : String
  size : Nat
  createdTime : Int
  driveLink : String
deriving DecidableEq

/-- The per-file processing step of `getVideosFromDrive` (lines 86-101). -/
def processDriveFile (f : DriveFile) : DriveVideo :=
  { id := f.id
  , name := stripExtension f.name
  , originalName := f.name
  , mimeType := f.mimeType
  , size := f.size
  , createdTime := f.createdTime
  , driveLink := shareableLink f.id }

/-- Whitespace trimming at both ends, models `String.prototype.trim`. -/
def trimChars (cs : List Char) : List Char :=
  ((cs.dropWhile Char.isWhitespace).reverse.dropWhile Char.isWhitespace).reverse

/-- Normalisation applied to titles on both sides of the dedup check:
`toLowerCase().trim()`. -/
def normTitle (s : String) : String :=
  String.mk (trimChars (s.data.map Char.toLower))

structure ExistingSets where
  existingVideos : List String
  existingLinks : List String
deriving DecidableEq

/-- Models `getExistingVideosFromNotion` (lines 122-150): one database
query with `page_size: 100` and no pagination, so only the first 100
records feed the two lookups; a record contributes its normalised title
and its link only when they are truthy. -/
def getExistingVideosFromNotion (store : List NotionPage) : ExistingSets :=
  let results := store.take 100
  { existingVideos :=
      results.filterMap fun p => if p.title == "" then none else some (normTitle p.title)
  , existingLinks :=
      results.filterMap fun p => if p.driveLink == "" then none else some p.driveLink }

/-- The page created by `addVideoToNotion` (lines 155-228) for one
inventory item, with the `DEFAULT_SETTINGS` metadata.  The store assigns
the fresh page id; the model derives it deterministically from the item. -/
def createPage (v : DriveVideo) : NotionPage :=
  { pageId := "page_" ++ v.id
  , title := v.name
  , driveLink := v.driveLink
  , description := ""
  , tags := ""
  , category := "Education"
  , privacy := "Public"
  , status := "Pending"
  , fileSizeMBHundredths := roundDiv (v.size * 100) (1024 * 1024)
  , driveCreated := some v.createdTime }

structure SyncOptions where
  dryRun : Bool := false
  limit : Option Nat := none
  skipExisting : Bool := true
deriving DecidableEq

/-- The duplicate filter of `syncVideos` (lines 260-270). -/
def filterNew (videos : List DriveVideo) (sets : ExistingSets) (skipExisting : Bool) :
    List DriveVideo :=
  videos.filter fun v =>
    !(skipExisting &&
      (sets.existingVideos.contains (normTitle v.name) ||
       sets.existingLinks.contains v.driveLink))

/-- Models `limit ? newVideos.slice(0, limit) : newVideos`; a limit of 0
is falsy in JavaScript and therefore does not cap the list. -/
def applyLimit : Option Nat → List DriveVideo → List DriveVideo
  | none, l => l
  | some k, l => if k == 0 then l else l.take k

/-- Result of one `syncVideos` pass.  `store` is the database after the
pass and `created` the pages created by it (the real function's side
effect on Notion); the numeric fields are the returned statistics.  The
model lets every `addVideoToNotion` call succeed, so `errors` is 0. -/
structure SyncOutcome where
  added : Nat
  skipped : Nat
  errors : Nat
  store : List NotionPage
  created : List NotionPage
deriving DecidableEq

/-- Models `syncVideos` (lines 233-330) over drive listing `files`,
database `store` and `options`. -/
def syncVideos (files : List DriveFile) (store : List NotionPage) (opts : SyncOptions) :
    SyncOutcome :=
  let driveVideos := files.map processDriveFile
  if driveVideos.isEmpty then
    { added := 0, skipped := 0, errors := 0, store := store, created := [] }
  else
    let sets := getExistingVideosFromNotion store
    let newVideos := filterNew driveVideos sets opts.skipExisting
    if newVideos.isEmpty then
      { added := 0, skipped := driveVideos.length, errors := 0, store := store, created := [] }
    else
      let videosToAdd := applyLimit opts.limit newVideos
      let createdPages := if opts.dryRun then [] else videosToAdd.map createPage
      { added := videosToAdd.length
      , skipped := driveVideos.length - newVideos.length
      , errors := 0
      , store := store ++ createdPages
      , created := createdPages }

/-- The options `syncVideos` runs with when `5syncgdrive.js` is invoked
with no command-line flags (as `run-pipeline.js` does). -/
def defaultSyncOptions : SyncOptions :=
  { dryRun := false, limit := none, skipExisting := true }

/-! ## `src/unnamed/part_000`: the Notion update module

`updateNotionPage`, `markAsError`, `incrementAttempts`,
`updateNotionAfterUpload` and `cleanupOldErrors`. -/

namespace Part000

/-- The upload-outcome object handed to the update functions.  String
fields use `""` for an absent (falsy) value, numbers use `0`. -/
structure UploadResult where
  success : Bool := false
  videoUrl : String := ""
  url : String := ""
  videoId : String := ""
  thumbnailUrl : String := ""
  uploadTimeSeconds : ℚ := 0
  fileSize : Nat := 0
  privacy : String := ""
  error : String := ""
  attempts : Nat := 0
  uploadDate : Option Int := none
deriving DecidableEq

/-- Models `createRichText` (lines 47-56): an empty rich-text array for a
falsy input, otherwise the text truncated to 2000 characters
(`text.substring(0, 2000)`). -/
def createRichText (text : String) : String :=
  if text == "" then "" else String.mk (text.data.take 2000)

/-- Models `privacy.charAt(0).toUpperCase() + privacy.slice(1)`. -/
def capitalizeFirst (s : String) : String :=
  match s.data with
  | [] => ""
  | c :: rest => String.mk (c.toUpper :: rest)

/-- Models `updateNotionPage` (lines 65-183) as a pure update of the page
record; `now` is the current clock reading used by `new Date()` and by
`formatNotionDate` when the outcome carries no date. -/
def updateNotionPage (page : NotionPage) (u : UploadResult) (now : Int) : NotionPage :=
  { page with
    status := if u.success then "Uploaded" else "Error"
  , uploadDate := some (u.uploadDate.getD now)
  , youtubeUrl := if u.success && !(u.videoUrl == "") then u.videoUrl else page.youtubeUrl
  , videoId := if !(u.videoId == "") then createRichText u.videoId else page.videoId
  , thumbnailUrl := if !(u.thumbnailUrl == "") then u.thumbnailUrl else page.thumbnailUrl
  , uploadTimeSeconds :=
      if u.success && !(u.uploadTimeSeconds == 0) then u.uploadTimeSeconds
      else page.uploadTimeSeconds
  , fileSizeMBHundredths :=
      if u.success && !(u.fileSize == 0) then 100 * roundDiv u.fileSize (1024 * 1024)
      else page.fileSizeMBHundredths
  , finalPrivacy :=
      if u.success && !(u.privacy == "") then capitalizeFirst u.privacy else page.finalPrivacy
  , errorMessage :=
      if !u.success && !(u.error == "") then createRichText u.error else page.errorMessage
  , errorDate := if !u.success && !(u.error == "") then some now else page.errorDate
  , attempts := if !(u.attempts == 0) then u.attempts else page.attempts }

/-- Models `markAsError` (lines 192-209): build a failed outcome with the
given message and attempt count (the caller's default is 1) and update
the page. -/
def markAsError (page : NotionPage) (errorMessage : String) (attempts : Nat) (now : Int) :
    NotionPage :=
  updateNotionPage page
    { success := false, error := errorMessage, uploadDate := some now, attempts := attempts }
    now

/-- Models `incrementAttempts` (lines 216-247): read the current counter
and write back its successor with a fresh attempt timestamp. -/
def incrementAttempts (page : NotionPage) (now : Int) : NotionPage :=
  { page with attempts := page.attempts + 1, lastAttempt := some now }

/-- Models `updateNotionAfterUpload` (lines 413-448): update the page,
then on a failure outcome increment the attempt counter.  The best-effort
comment append touches no page property and is omitted. -/
def updateNotionAfterUpload (page : NotionPage) (u : UploadResult) (now : Int) : NotionPage :=
  let p1 := updateNotionPage page u now
  if u.success then p1 else incrementAttempts p1 now

/-- The filter `cleanupOldErrors` sends to the store: status is `Error`
and the error date lies strictly before `now - days` (the cutoff obtained
by moving the clock back `days` days). -/
def isOldError (now days : Int) (p : NotionPage) : Bool :=
  p.status == "Error" &&
    (match p.errorDate with
     | some t => decide (t < now - days)
     | none => false)

/-- The per-page reset written by `cleanupOldErrors`: status back to
`Pending`, the error message cleared (empty rich-text array), the attempt
counter zeroed.  No other property is written. -/
def resetErrorProps (p : NotionPage) : NotionPage :=
  { p with status := "Pending", errorMessage := "", attempts := 0 }

/-- The update loop of `cleanupOldErrors`: each queried page is patched
in the store by its page id, counting one reset per page. -/
def applyResets (store : List NotionPage) : List NotionPage → List NotionPage × Nat
  | [] => (store, 0)
  | t :: ts =>
    let patched := store.map fun q => if q.pageId == t.pageId then resetErrorProps q else q
    let (s, n) := applyResets patched ts
    (s, n + 1)

/-- Models `cleanupOldErrors` (lines 339-404) over the whole store: query
the pages matching the filter, reset each, return the new store and the
count of pages reset. -/
def cleanupOldErrors (store : List NotionPage) (now days : Int) : List NotionPage × Nat :=
  applyResets store (store.filter (isOldError now days))

end Part000

/-! ## `src/unnamed/part_001`: the status helper module

`updateVideoStatus`, `addErrorLog`, `markAsProcessing`, `markAsUploaded`,
`markAsError`. -/

namespace Part001

/-- The YouTube data object `markAsUploaded` builds. -/
structure YoutubeData where
  videoUrl : String := ""
  uploadDate : Option Int := none
deriving DecidableEq

/-- Models `updateVideoStatus` (lines 11-55): set the status, and when
YouTube data is supplied also the URL (if truthy) and the upload date. -/
def updateVideoStatus (page : NotionPage) (status : String) (yt : Option YoutubeData)
    (now : Int) : NotionPage :=
  match yt with
  | none => { page with status := status }
  | some y =>
    { page with
      status := status
    , youtubeUrl := if !(y.videoUrl == "") then y.videoUrl else page.youtubeUrl
    , uploadDate := some (y.uploadDate.getD now) }

/-- Models `addErrorLog` (lines 60-86): set status `Error` and stamp the
upload date; the message argument is not persisted anywhere (the `Error
Log` and `Last Attempt` writes were removed from the code). -/
def addErrorLog (page : NotionPage) (_errorMessage : String) (now : Int) : NotionPage :=
  { page with status := "Error", uploadDate := some now }

/-- Models `markAsProcessing` (lines 91-93). -/
def markAsProcessing (page : NotionPage) (now : Int) : NotionPage :=
  updateVideoStatus page "Processing" none now

/-- Models `markAsUploaded` (lines 98-105): status `Uploaded` with the
outcome's URL (falling back from `videoUrl` to `url`) and a fresh date. -/
def markAsUploaded (page : NotionPage) (u : Part000.UploadResult) (now : Int) : NotionPage :=
  let youtubeData : YoutubeData :=
    { videoUrl := if !(u.videoUrl == "") then u.videoUrl else u.url
    , uploadDate := some now }
  updateVideoStatus page "Uploaded" (some youtubeData) now

/-- Models `markAsError` (lines 110-113): set status `Error`, then add
the (unpersisted) error log entry. -/
def markAsError (page : NotionPage) (errorMessage : String) (now : Int) : NotionPage :=
  addErrorLog (updateVideoStatus page "Error" none now) errorMessage now

end Part001

/-! ## Selection (`1fetchvideos.js`) and the pipeline (`run-pipeline.js`)

`run-pipeline.js` drives the phases by spawning the step scripts; the
world below threads their combined state: the Drive folder, the Notion
store, the network oracle for download candidates, the publish
collaborator's verdict, downloaded local files, published videos, and the
`temp_video_data.json` hand-off file. -/

/-- Insertion step for the title-ascending sort the selection query asks
the store for. -/
def insertByTitle (p : NotionPage) : List NotionPage → List NotionPage
  | [] => [p]
  | q :: rest =>
    if p.title ≤ q.title then p :: q :: rest else q :: insertByTitle p rest

/-- The store's title-ascending ordering of a result set. -/
def sortByTitle (l : List NotionPage) : List NotionPage :=
  l.foldr insertByTitle []

/-- Models `getNextVideoForUpload` via `fetchPendingVideos(1)`: query the
pages with status `Pending` sorted by title ascending with
`page_size: min(1, 100) = 1`, then keep the single result only when its
processed data is valid (non-empty title and Drive link). -/
def getNextVideoForUpload (store : List NotionPage) : Option NotionPage :=
  let pending := sortByTitle (store.filter fun p => p.status == "Pending")
  match pending.take 1 with
  | [] => none
  | p :: _ => if !(p.title == "") && !(p.driveLink == "") then some p else none

structure World where
  drive : List DriveFile := []
  store : List NotionPage := []
  net : List CandResponse := []
  publishOk : Bool := true
  localFiles : List String := []
  published : List String := []
  tempData : Option String := none
deriving DecidableEq

/-- Patch one page of the store by page id. -/
def updateById (store : List NotionPage) (pageId : String) (f : NotionPage → NotionPage) :
    List NotionPage :=
  store.map fun q => if q.pageId == pageId then f q else q

/-- Models `downloadVideo` of `2downloadvideo.js` for an already fetched
page: validate the page data (page id, title and Drive link must be
truthy), extract and validate the Drive id, run `downloadFromDrive`
against the network oracle, then validate the downloaded file (non-empty
is guaranteed by the download loop; the 128 GB cap is checked).  `none`
models a failed download run. -/
def downloadVideoModel (p : NotionPage) (net : List CandResponse) : Option DownloadPayload :=
  if p.pageId == "" || p.title == "" || p.driveLink == "" then none
  else
    match extractAndValidateDriveId p.driveLink with
    | none => none
    | some _ =>
      match downloadFromDrive p.driveLink net with
      | .error _ => none
      | .ok payload =>
        if 128 * 1024 * 1024 * 1024 < payload.fileSize then none else some payload

/-- Pipeline step 3, `node 2downloadvideo.js <pageId>`: fetch the page,
download its asset to the temp folder. -/
def downloadStep (w : World) (pageId : String) : World × Bool :=
  match w.store.find? fun p => p.pageId == pageId with
  | none => (w, false)
  | some p =>
    match downloadVideoModel p w.net with
    | none => (w, false)
    | some payload => ({ w with localFiles := w.localFiles ++ [payload.filePath] }, true)

/-- Pipeline step 4, `node 3uploadyoutube.js <pageId>`, i.e.
`uploadVideoById` with no file path: fetch the page, download the asset
again, publish it, and update the page through the status helpers of
`utils/update-notion` — `markAsUploaded` is invoked with the outcome even
when the publish call failed, and a thrown error is recorded with
`markAsError`.  The step reports the publish call's verdict. -/
def uploadStep (w : World) (pageId : String) (now : Int) : World × Bool :=
  match w.store.find? fun p => p.pageId == pageId with
  | none => (w, false)
  | some p =>
    match downloadVideoModel p w.net with
    | none =>
      ({ w with store :=
          updateById w.store pageId (fun q => Part001.markAsError q "Falha no download" now) },
       false)
    | some payload =>
      let w1 := { w with localFiles := w.localFiles ++ [payload.filePath] }
      if w.publishOk then
        let vid := "yt_" ++ pageId
        let uploadResult : Part000.UploadResult :=
          { success := true
          , videoId := vid
          , videoUrl := "https://www.youtube.com/watch?v=" ++ vid
          , uploadDate := some now }
        let store2 :=
          updateById w1.store pageId (fun q => Part001.markAsUploaded q uploadResult now)
        let w2 := { w1 with published := w1.published ++ [vid], store := store2 }
        (w2, true)
      else
        let uploadResult : Part000.UploadResult :=
          { success := false, error := "Erro no upload", attempts := 1, uploadDate := some now }
        let store2 :=
          updateById w1.store pageId (fun q => Part001.markAsUploaded q uploadResult now)
        let w2 := { w1 with store := store2 }
        (w2, false)

/-- Models `runPipeline` (run-pipeline.js, lines 44-154).  Step 1 spawns
`5syncgdrive.js` with no flags (so with `defaultSyncOptions`, never in
dry-run) unless `sync` is off; step 2 selects the next pending record and
hands it over through the temp file; in preview mode the remaining steps
are skipped and the temp file is removed; otherwise download, upload and
the final Notion update run in sequence (`4updatenotion.js` defines its
functions but has no entry point, so spawning it changes nothing). -/
def runPipeline (preview sync : Bool) (w : World) (now : Int) : World × (Bool × String) :=
  let w1 :=
    if sync then { w with store := (syncVideos w.drive w.store defaultSyncOptions).store }
    else w
  match getNextVideoForUpload w1.store with
  | none => (w1, (false, "fetch"))
  | some sel =>
    let w2 := { w1 with tempData := some sel.pageId }
    if preview then
      ({ w2 with tempData := none }, (true, ""))
    else
      match downloadStep w2 sel.pageId with
      | (w3, false) => (w3, (false, "download"))
      | (w3, true) =>
        match uploadStep w3 sel.pageId now with
        | (w4, false) => (w4, (false, "upload"))
        | (w4, true) => ({ w4 with tempData := none }, (true, ""))

/-! ## Shared helper lemmas -/

theorem contains_iff_mem {l : List String} {a : String} : l.contains a = true ↔ a ∈ l :=
  List.elem_iff

theorem shareableLink_ne_empty (i : String) : shareableLink i ≠ "" := by
  intro h
  have hd : (shareableLink i).data = [] := by rw [h]
  rw [shareableLink, String.data_append, String.data_append] at hd
  obtain ⟨h1, -⟩ := List.append_eq_nil.mp hd
  obtain ⟨h2, -⟩ := List.append_eq_nil.mp h1
  exact absurd h2 (by decide)

theorem createRichText_ne_empty {s : String} (h : s ≠ "") : Part000.createRichText s ≠ "" := by
  have hd : s.data ≠ [] := fun hnil => h (String.ext hnil)
  have hbeq : (s == "") = false := by simpa using h
  unfold Part000.createRichText
  rw [hbeq]
  simp only [Bool.false_eq_true, if_false]
  intro hcon
  have : s.data.take 2000 = [] := by
    have := congrArg String.data hcon
    simpa using this
  rcases List.take_eq_nil_iff.mp this with h0 | h0
  · exact absurd h0 (by norm_num)
  · exact hd h0

theorem applyLimit_subset {v : DriveVideo} {lim : Option Nat} {l : List DriveVideo}
    (h : v ∈ applyLimit lim l) : v ∈ l := by
  cases lim with
  | none => exact h
  | some k =>
    by_cases hk : (k == 0) = true
    · simpa [applyLimit, hk] using h
    · exact List.mem_of_mem_take (by simpa [applyLimit, hk] using h)

theorem mem_created_syncVideos {files : List DriveFile} {store : List NotionPage}
    {opts : SyncOptions} {p : NotionPage}
    (hp : p ∈ (syncVideos files store opts).created) :
    ∃ v ∈ filterNew (files.map processDriveFile) (getExistingVideosFromNotion store)
        opts.skipExisting, p = createPage v := by
  by_cases h1 : (files.map processDriveFile).isEmpty
  · simp [syncVideos, h1] at hp
  by_cases h2 : (filterNew (files.map processDriveFile) (getExistingVideosFromNotion store)
      opts.skipExisting).isEmpty
  · simp [syncVideos, h1, h2] at hp
  by_cases h3 : opts.dryRun
  · simp [syncVideos, h1, h2, h3] at hp
  · simp [syncVideos, h1, h2, h3] at hp
    obtain ⟨v, hv, rfl⟩ := hp
    exact ⟨v, applyLimit_subset hv, rfl⟩

theorem sync_store_append (files : List DriveFile) (store : List NotionPage)
    (opts : SyncOptions) :
    (syncVideos files store opts).store = store ++ (syncVideos files store opts).created := by
  by_cases h1 : (files.map processDriveFile).isEmpty
  · simp [syncVideos, h1]
  · by_cases h2 : (filterNew (files.map processDriveFile) (getExistingVideosFromNotion store)
        opts.skipExisting).isEmpty
    · simp [syncVideos, h1, h2]
    · simp [syncVideos, h1, h2]

theorem applyResets_spec (targets : List NotionPage) (store : List NotionPage) :
    Part000.applyResets store targets =
      (store.map fun q =>
        if (targets.map (fun t => t.pageId)).contains q.pageId then Part000.resetErrorProps q
        else q,
       targets.length) := by
  induction targets generalizing store with
  | nil =>
    simp [Part000.applyResets]
  | cons t ts ih =>
    simp only [Part000.applyResets, ih, List.map_map, List.length_cons, Prod.mk.injEq]
    refine ⟨List.map_congr_left fun q _ => ?_, trivial⟩
    have hidem : Part000.resetErrorProps (Part000.resetErrorProps q) = Part000.resetErrorProps q :=
      rfl
    have hpid : (Part000.resetErrorProps q).pageId = q.pageId := rfl
    by_cases hq : (q.pageId == t.pageId) = true
    · have hcons : ((t :: ts).map (fun t => t.pageId)).contains q.pageId = true := by
        simp only [List.map_cons, List.contains_cons]
        rw [hq]
        rfl
      have heq : q.pageId = t.pageId := by simpa using hq
      simp [Function.comp, hq, hcons, hpid, hidem, heq]
    · have hq' : (q.pageId == t.pageId) = false := eq_false_of_ne_true hq
      have hcons : ((t :: ts).map fun t => t.pageId).contains q.pageId
          = ((ts.map fun t => t.pageId).contains q.pageId) := by
        simp only [List.map_cons, List.contains_cons]
        rw [hq']
        simp
      have hne : ¬q.pageId = t.pageId := by simpa using hq'
      simp [Function.comp, hq', hcons, hne]

/-! ## Claim theorems -/

set_option maxRecDepth 100000 in
/-- Claim C1 (corrected), counterexample: the Reconciler's lookup is never
extended during a pass, so two inventory items whose names normalise to
the same title (here `Sermon.mp4` and `sermon.avi`, both normalising to
`sermon`) are both registered in one pass on an empty record set, the
second one although its normalised title already matches a record created
earlier in the same pass. -/
theorem c1_same_pass_duplicate_counterexample :
    ((syncVideos
      [ { id := "id1", name := "Sermon.mp4" }, { id := "id2", name := "sermon.avi" } ]
      [] defaultSyncOptions).created.map fun p => normTitle p.title) = ["sermon", "sermon"]
    ∧ (syncVideos
      [ { id := "id1", name := "Sermon.mp4" }, { id := "id2", name := "sermon.avi" } ]
      [] defaultSyncOptions).added = 2 := by
  constructor
  · decide
  · decide

/-- Claim C1 (corrected, amended): with `skipExisting` enabled, `syncVideos`
creates a record only for inventory items whose trimmed, lowercased name
is absent from the title lookup and whose canonical drive link is absent
from the link lookup, where both lookups are built by
`getExistingVideosFromNotion` from (at most the first 100 records of) the
existing record set; records created earlier in the same pass do not
enter the lookup and hence do not suppress later duplicates. -/
theorem c1_reconciler_creates_only_absent (files : List DriveFile) (store : List NotionPage)
    (opts : SyncOptions) (hskip : opts.skipExisting = true) (p : NotionPage)
    (hp : p ∈ (syncVideos files store opts).created) :
    (getExistingVideosFromNotion store).existingVideos.contains (normTitle p.title) = false
    ∧ (getExistingVideosFromNotion store).existingLinks.contains p.driveLink = false := by
  obtain ⟨v, hv, rfl⟩ := mem_created_syncVideos hp
  have hcond := (List.mem_filter.mp hv).2
  rw [hskip] at hcond
  simp only [Bool.true_and, Bool.not_eq_true', Bool.or_eq_false_iff] at hcond
  simpa [createPage] using hcond

set_option maxRecDepth 100000 in
/-- Witness for C1: a concrete pass over one inventory item and one
unrelated existing record, instantiating the amended theorem. -/
theorem c1_witness :
    (getExistingVideosFromNotion
        [ { pageId := "p0", title := "Other Video", driveLink := "https://example.com/x" } ]).existingVideos.contains
      (normTitle (createPage (processDriveFile { id := "id1", name := "Sermon.mp4" })).title)
      = false
    ∧ (getExistingVideosFromNotion
        [ { pageId := "p0", title := "Other Video", driveLink := "https://example.com/x" } ]).existingLinks.contains
      (createPage (processDriveFile { id := "id1", name := "Sermon.mp4" })).driveLink
      = false :=
  c1_reconciler_creates_only_absent
    [ { id := "id1", name := "Sermon.mp4" } ]
    [ { pageId := "p0", title := "Other Video", driveLink := "https://example.com/x" } ]
    defaultSyncOptions rfl
    (createPage (processDriveFile { id := "id1", name := "Sermon.mp4" }))
    (by decide)

/-- Claim C2 (confirmed): if every candidate before position `k` answers
with a markup (`text/html`) content type and candidate `k` answers with a
non-markup content type whose body streams to a non-empty file, then
`downloadFromDrive` returns candidate `k`'s payload (path, name, size and
mime type); the result does not depend on the responses after position
`k`, so the later candidates are never attempted. -/
theorem c2_fetch_returns_first_valid_candidate (url fileId : String)
    (pre rest : List CandResponse) (ct : String) (size : Nat)
    (hid : extractFileIdFromUrl url = some fileId)
    (hpre : ∀ r ∈ pre, ∃ ct' s, r = CandResponse.http ct' s ∧ htmlLike ct' = true)
    (hct : htmlLike ct = false) (hsize : size ≠ 0) :
    downloadFromDrive url (pre ++ CandResponse.http ct (.done size) :: rest)
      = .ok (mkPayload fileId size) := by
  simp only [downloadFromDrive, hid]
  induction pre with
  | nil =>
    simp [tryCandidates, hct, hsize]
  | cons r pre ih =>
    obtain ⟨ct', s, rfl, hml⟩ := hpre r (by simp)
    simpa [tryCandidates, hml] using ih (fun r hr => hpre r (by simp [hr]))

set_option maxRecDepth 100000 in
/-- Witness for C2: two markup candidates, then a valid `video/mp4`
candidate of 10 bytes, then a further candidate that is never attempted. -/
theorem c2_witness :
    downloadFromDrive "https://drive.google.com/file/d/AAAAAAAAAAAAAAAAAAAA/view"
      ([ CandResponse.http "text/html" (.done 5), CandResponse.http "text/html; charset=utf-8" .failed ]
        ++ CandResponse.http "video/mp4" (.done 10) :: [CandResponse.netError])
      = .ok (mkPayload "AAAAAAAAAAAAAAAAAAAA" 10) :=
  c2_fetch_returns_first_valid_candidate
    "https://drive.google.com/file/d/AAAAAAAAAAAAAAAAAAAA/view" "AAAAAAAAAAAAAAAAAAAA"
    [ CandResponse.http "text/html" (.done 5), CandResponse.http "text/html; charset=utf-8" .failed ]
    [CandResponse.netError] "video/mp4" 10
    (by decide)
    (by
      intro r hr
      rcases List.mem_pair.mp hr with rfl | rfl
      · exact ⟨"text/html", .done 5, rfl, by decide⟩
      · exact ⟨"text/html; charset=utf-8", .failed, rfl, by decide⟩)
    (by decide) (by decide)

set_option maxRecDepth 100000 in
/-- Claim C3 (corrected), counterexample: when every candidate (including
the last) answers with a markup content type, the download loop ends with
the generic `Todas as URLs de download falharam` exhaustion error, which
does not carry the last candidate's own failure (the markup rejection the
spec's per-candidate reading assigns to it). -/
theorem c3_all_markup_counterexample :
    tryCandidates "fileid" (List.replicate 4 (CandResponse.http "text/html" (.done 1024)))
      = .error .allUrlsFailed
    ∧ specCandidateFailure (CandResponse.http "text/html" (.done 1024)) = .markupPage
    ∧ DLError.allUrlsFailed ≠ DLError.markupPage := by
  refine ⟨by decide, by decide, by decide⟩

/-- Claim C3 (corrected, amended): when every candidate answers with a
markup content type or a zero-byte body, `tryCandidates` fails (no
success result): with the last candidate's own error (`emptyFile`) when
the last candidate streamed a zero-byte body, but with the generic
exhaustion error (`allUrlsFailed`), not a candidate-specific one, when
the last candidate was rejected for its markup content type. -/
theorem c3_fetch_exhaustion_amended (fileId : String) (rs : List CandResponse)
    (hne : rs ≠ []) (hall : ∀ r ∈ rs, markupOrEmpty r = true) :
    tryCandidates fileId rs = .error (exhaustError (rs.getLast hne)) := by
  induction rs with
  | nil => exact absurd rfl hne
  | cons r rest ih =>
    match rest, ih with
    | [], _ =>
      have hr := hall r (by simp)
      cases r with
      | netError => simp [markupOrEmpty] at hr
      | http ct s =>
        cases s with
        | failed =>
          have : htmlLike ct = true := by simpa [markupOrEmpty] using hr
          simp [tryCandidates, this, exhaustError, List.getLast]
        | done n =>
          by_cases hml : htmlLike ct = true
          · simp [tryCandidates, hml, exhaustError, List.getLast]
          · have hn : (n == 0) = true := by
              simp [markupOrEmpty, hml] at hr
              simpa using hr
            simp [tryCandidates, hml, hn, exhaustError, List.getLast]
    | r' :: rest', ih =>
      have hne' : r' :: rest' ≠ [] := by simp
      have ihr := ih hne' (fun x hx => hall x (by simp [hx]))
      have hlast : (r :: r' :: rest').getLast hne = (r' :: rest').getLast hne' :=
        List.getLast_cons hne'
      rw [hlast]
      have hr := hall r (by simp)
      cases r with
      | netError => simp [markupOrEmpty] at hr
      | http ct s =>
        cases s with
        | failed =>
          have : htmlLike ct = true := by simpa [markupOrEmpty] using hr
          simpa [tryCandidates, this] using ihr
        | done n =>
          by_cases hml : htmlLike ct = true
          · simpa [tryCandidates, hml] using ihr
          · have hn : (n == 0) = true := by
              simp [markupOrEmpty, hml] at hr
              simpa using hr
            simpa [tryCandidates, hml, hn] using ihr

set_option maxRecDepth 100000 in
/-- Witness for C3: one markup candidate followed by a zero-byte last
candidate; the loop fails with that last candidate's empty-file error. -/
theorem c3_witness :
    tryCandidates "fileid"
      [CandResponse.http "text/html" (.done 100), CandResponse.http "video/mp4" (.done 0)]
      = .error .emptyFile := by
  have h := c3_fetch_exhaustion_amended "fileid"
    [CandResponse.http "text/html" (.done 100), CandResponse.http "video/mp4" (.done 0)]
    (by decide) (by decide)
  simpa using h

set_option maxRecDepth 100000 in
/-- Claim C4 (corrected), counterexample: the `markAsError` transition of
`src/unnamed/part_001` moves a record with 2 prior attempts and no stored
error message into `Error` while persisting no error message at all and
leaving the attempts counter at 2 — not strictly greater than before. -/
theorem c4_markAsError_counterexample :
    (Part001.markAsError
      { pageId := "p1", status := "Processing", attempts := 2 } "boom" 7).status = "Error"
    ∧ (Part001.markAsError
      { pageId := "p1", status := "Processing", attempts := 2 } "boom" 7).attempts = 2
    ∧ (Part001.markAsError
      { pageId := "p1", status := "Processing", attempts := 2 } "boom" 7).errorMessage = ""
    ∧ ¬ 2 < 2 := by
  refine ⟨by decide, by decide, by decide, by decide⟩

/-- Claim C4 (corrected, amended): the `updateNotionAfterUpload` transition
of `src/unnamed/part_000`, given a failing outcome with a non-empty error
message and no attempts override, sets status `Error`, persists the error
message truncated to the rich-text bound (non-empty), and leaves the
attempts counter at exactly one more than before (strictly greater); the
`markAsError` of part_001, by contrast, persists no error message and
leaves attempts unchanged, and an empty error message is never persisted. -/
theorem c4_error_transition_amended (page : NotionPage) (u : Part000.UploadResult)
    (now : Int) (hfail : u.success = false) (herr : u.error ≠ "") (hatt : u.attempts = 0) :
    (Part000.updateNotionAfterUpload page u now).status = "Error"
    ∧ (Part000.updateNotionAfterUpload page u now).errorMessage = Part000.createRichText u.error
    ∧ (Part000.updateNotionAfterUpload page u now).errorMessage ≠ ""
    ∧ (Part000.updateNotionAfterUpload page u now).attempts = page.attempts + 1
    ∧ page.attempts < (Part000.updateNotionAfterUpload page u now).attempts := by
  have hbeq : (u.error == "") = false := by simpa using herr
  unfold Part000.updateNotionAfterUpload Part000.updateNotionPage Part000.incrementAttempts
  simp [hfail, hbeq, hatt, createRichText_ne_empty herr]

set_option maxRecDepth 100000 in
/-- Witness for C4: a concrete failing outcome on a record with 3 prior
attempts, instantiating the amended theorem. -/
theorem c4_witness :
    (Part000.updateNotionAfterUpload { pageId := "p2", attempts := 3 }
      { success := false, error := "quota exceeded" } 9).status = "Error"
    ∧ (Part000.updateNotionAfterUpload { pageId := "p2", attempts := 3 }
      { success := false, error := "quota exceeded" } 9).errorMessage
        = Part000.createRichText "quota exceeded"
    ∧ (Part000.updateNotionAfterUpload { pageId := "p2", attempts := 3 }
      { success := false, error := "quota exceeded" } 9).errorMessage ≠ ""
    ∧ (Part000.updateNotionAfterUpload { pageId := "p2", attempts := 3 }
      { success := false, error := "quota exceeded" } 9).attempts
        = ({ pageId := "p2", attempts := 3 } : NotionPage).attempts + 1
    ∧ ({ pageId := "p2", attempts := 3 } : NotionPage).attempts
        < (Part000.updateNotionAfterUpload { pageId := "p2", attempts := 3 }
          { success := false, error := "quota exceeded" } 9).attempts :=
  c4_error_transition_amended { pageId := "p2", attempts := 3 }
    { success := false, error := "quota exceeded" } 9 rfl (by decide) rfl

set_option maxRecDepth 100000 in
/-- Claim C5 (corrected), counterexample: the `markAsUploaded` transition
of `src/unnamed/part_001` moves a record carrying a stale error message
into `Uploaded` with the published URL, but persists no published video
id and leaves the stale `lastError` in place instead of clearing it. -/
theorem c5_markAsUploaded_counterexample :
    (Part001.markAsUploaded { pageId := "p1", errorMessage := "old failure" }
      { success := true, videoUrl := "https://youtu.be/x" } 3).status = "Uploaded"
    ∧ (Part001.markAsUploaded { pageId := "p1", errorMessage := "old failure" }
      { success := true, videoUrl := "https://youtu.be/x" } 3).youtubeUrl = "https://youtu.be/x"
    ∧ (Part001.markAsUploaded { pageId := "p1", errorMessage := "old failure" }
      { success := true, videoUrl := "https://youtu.be/x" } 3).videoId = ""
    ∧ (Part001.markAsUploaded { pageId := "p1", errorMessage := "old failure" }
      { success := true, videoUrl := "https://youtu.be/x" } 3).errorMessage = "old failure" := by
  refine ⟨by decide, by decide, by decide, by decide⟩

/-- Claim C5 (corrected, amended): the `updateNotionPage` transition of
`src/unnamed/part_000`, given a successful outcome carrying a video URL
and a video id, sets status `Uploaded` and persists both the published
URL and the published id (truncated, non-empty); no transition clears a
prior `lastError` — the error-message property is left exactly as it was. -/
theorem c5_uploaded_transition_amended (page : NotionPage) (u : Part000.UploadResult)
    (now : Int) (hs : u.success = true) (hurl : u.videoUrl ≠ "") (hid : u.videoId ≠ "") :
    (Part000.updateNotionPage page u now).status = "Uploaded"
    ∧ (Part000.updateNotionPage page u now).youtubeUrl = u.videoUrl
    ∧ (Part000.updateNotionPage page u now).videoId = Part000.createRichText u.videoId
    ∧ (Part000.updateNotionPage page u now).videoId ≠ ""
    ∧ (Part000.updateNotionPage page u now).errorMessage = page.errorMessage := by
  have hbu : (u.videoUrl == "") = false := by simpa using hurl
  have hbi : (u.videoId == "") = false := by simpa using hid
  unfold Part000.updateNotionPage
  simp [hs, hbu, hbi, createRichText_ne_empty hid]

set_option maxRecDepth 100000 in
/-- Witness for C5: a concrete successful outcome on a record with a
stale error message, instantiating the amended theorem. -/
theorem c5_witness :
    (Part000.updateNotionPage { pageId := "p3", errorMessage := "old failure" }
      { success := true, videoUrl := "https://youtu.be/y", videoId := "y123" } 4).status
        = "Uploaded"
    ∧ (Part000.updateNotionPage { pageId := "p3", errorMessage := "old failure" }
      { success := true, videoUrl := "https://youtu.be/y", videoId := "y123" } 4).youtubeUrl
        = "https://youtu.be/y"
    ∧ (Part000.updateNotionPage { pageId := "p3", errorMessage := "old failure" }
      { success := true, videoUrl := "https://youtu.be/y", videoId := "y123" } 4).videoId
        = Part000.createRichText "y123"
    ∧ (Part000.updateNotionPage { pageId := "p3", errorMessage := "old failure" }
      { success := true, videoUrl := "https://youtu.be/y", videoId := "y123" } 4).videoId ≠ ""
    ∧ (Part000.updateNotionPage { pageId := "p3", errorMessage := "old failure" }
      { success := true, videoUrl := "https://youtu.be/y", videoId := "y123" } 4).errorMessage
        = ({ pageId := "p3", errorMessage := "old failure" } : NotionPage).errorMessage :=
  c5_uploaded_transition_amended { pageId := "p3", errorMessage := "old failure" }
    { success := true, videoUrl := "https://youtu.be/y", videoId := "y123" } 4
    rfl (by decide) (by decide)

/-- Claim C6 (confirmed): over a store with distinct page ids,
`cleanupOldErrors` returns the count of records whose status is `Error`
and whose error timestamp lies strictly before `now - days`, and the
resulting store maps exactly those records to their reset form (status
`Pending`, error message cleared, attempts zero, every other property
untouched) while leaving every other record — in particular every record
newer than the threshold — completely unchanged. -/
theorem c6_cleanup_old_errors_spec (store : List NotionPage) (now days : Int)
    (hnd : (store.map fun p => p.pageId).Nodup) :
    (Part000.cleanupOldErrors store now days).2
      = (store.filter (Part000.isOldError now days)).length
    ∧ (Part000.cleanupOldErrors store now days).1
      = store.map fun q =>
          if Part000.isOldError now days q then Part000.resetErrorProps q else q := by
  unfold Part000.cleanupOldErrors
  rw [applyResets_spec]
  refine ⟨rfl, List.map_congr_left fun q hq => ?_⟩
  by_cases hold : Part000.isOldError now days q = true
  · have hmem : q ∈ store.filter (Part000.isOldError now days) := List.mem_filter.mpr ⟨hq, hold⟩
    have hcont : (((store.filter (Part000.isOldError now days)).map
        fun t => t.pageId).contains q.pageId) = true :=
      contains_iff_mem.mpr (List.mem_map.mpr ⟨q, hmem, rfl⟩)
    rw [if_pos hcont, if_pos hold]
  · have hcont : ¬ (((store.filter (Part000.isOldError now days)).map
        fun t => t.pageId).contains q.pageId) = true := by
      intro hc
      obtain ⟨t, ht, hpid⟩ := List.mem_map.mp (contains_iff_mem.mp hc)
      have htf := List.mem_filter.mp ht
      have hteq : t = q := List.inj_on_of_nodup_map hnd htf.1 hq hpid
      rw [hteq] at htf
      exact hold htf.2
    rw [if_neg hcont, if_neg hold]

/-- Concrete two-record store used by the C6 witness: one stale `Error`
record and one fresh one. -/
def c6WitnessStore : List NotionPage :=
  [ { pageId := "a", status := "Error", errorDate := some 0, attempts := 4,
      errorMessage := "boom" },
    { pageId := "b", status := "Error", errorDate := some 99, attempts := 2,
      errorMessage := "late" } ]

set_option maxRecDepth 100000 in
/-- Witness for C6: a store holding one stale `Error` record (timestamp 0,
threshold 7 days before time 100) and one fresh `Error` record (timestamp
99); the theorem instance gives count 1, the stale record reset and the
fresh record untouched. -/
theorem c6_witness :
    (Part000.cleanupOldErrors c6WitnessStore 100 7).2
      = (c6WitnessStore.filter (Part000.isOldError 100 7)).length
    ∧ (Part000.cleanupOldErrors c6WitnessStore 100 7).1
      = c6WitnessStore.map fun q =>
          if Part000.isOldError 100 7 q then Part000.resetErrorProps q else q :=
  c6_cleanup_old_errors_spec c6WitnessStore 100 7 (by decide)

set_option maxRecDepth 100000 in
/-- Claim C7 (corrected), counterexample: on a store of 100 filler records
the first pass registers the single inventory item as record number 101;
the second pass's duplicate lookup reads only the first 100 records, never
sees the new record, and registers the same item again — the second run's
created count is 1, not 0. -/
theorem c7_idempotence_counterexample :
    (syncVideos [ { id := "id1", name := "Sermon.mp4" } ]
      ((syncVideos [ { id := "id1", name := "Sermon.mp4" } ]
        (List.replicate 100 ({ pageId := "filler" } : NotionPage)) defaultSyncOptions).store)
      defaultSyncOptions).added = 1
    ∧ (syncVideos [ { id := "id1", name := "Sermon.mp4" } ]
      (List.replicate 100 ({ pageId := "filler" } : NotionPage)) defaultSyncOptions).added = 1 := by
  refine ⟨by decide, by decide⟩

/-- Claim C7 (corrected, amended): running `syncVideos` a second time on
the unchanged inventory and the record set produced by the first run
creates zero records, provided that record set does not exceed the
100-record page the duplicate lookup reads (otherwise records beyond the
first page are invisible to the lookup and can be registered again). -/
theorem c7_reconciler_idempotent_amended (files : List DriveFile) (store : List NotionPage)
    (h100 : (syncVideos files store defaultSyncOptions).store.length ≤ 100) :
    (syncVideos files (syncVideos files store defaultSyncOptions).store
      defaultSyncOptions).added = 0 := by
  by_cases h1 : files.map processDriveFile = []
  · simp [syncVideos, h1]
  by_cases h2 : filterNew (files.map processDriveFile) (getExistingVideosFromNotion store) true = []
  · have hstore : (syncVideos files store defaultSyncOptions).store = store := by
      simp [syncVideos, h1, h2, defaultSyncOptions]
    rw [hstore]
    simp [syncVideos, h1, h2, defaultSyncOptions]
  · have hstore : (syncVideos files store defaultSyncOptions).store =
        store ++ (filterNew (files.map processDriveFile) (getExistingVideosFromNotion store)
          true).map createPage := by
      simp [syncVideos, h1, h2, defaultSyncOptions, applyLimit]
    set C := (filterNew (files.map processDriveFile) (getExistingVideosFromNotion store)
      true).map createPage with hC
    rw [hstore] at h100 ⊢
    have hslen : store.length ≤ 100 := by
      rw [List.length_append] at h100
      omega
    have htake1 : store.take 100 = store := List.take_of_length_le hslen
    have htake2 : (store ++ C).take 100 = store ++ C := List.take_of_length_le h100
    have hnew2 : filterNew (files.map processDriveFile)
        (getExistingVideosFromNotion (store ++ C)) true = [] := by
      unfold filterNew
      rw [List.filter_eq_nil_iff]
      intro v hv
      have hAB : ((getExistingVideosFromNotion (store ++ C)).existingVideos.contains
          (normTitle v.name)
          || (getExistingVideosFromNotion (store ++ C)).existingLinks.contains v.driveLink)
          = true := by
        by_cases hkeep : ((getExistingVideosFromNotion store).existingVideos.contains
            (normTitle v.name)
            || (getExistingVideosFromNotion store).existingLinks.contains v.driveLink) = true
        · rw [Bool.or_eq_true] at hkeep ⊢
          rcases hkeep with hc | hc
          · refine Or.inl ?_
            rw [contains_iff_mem] at hc ⊢
            simp only [getExistingVideosFromNotion, htake1] at hc
            simp only [getExistingVideosFromNotion, htake2]
            rw [List.filterMap_append]
            exact List.mem_append_left _ hc
          · refine Or.inr ?_
            rw [contains_iff_mem] at hc ⊢
            simp only [getExistingVideosFromNotion, htake1] at hc
            simp only [getExistingVideosFromNotion, htake2]
            rw [List.filterMap_append]
            exact List.mem_append_left _ hc
        · have hfalse : ((getExistingVideosFromNotion store).existingVideos.contains
              (normTitle v.name)
              || (getExistingVideosFromNotion store).existingLinks.contains v.driveLink)
              = false := eq_false_of_ne_true hkeep
          have hvmem : v ∈ filterNew (files.map processDriveFile)
              (getExistingVideosFromNotion store) true := by
            refine List.mem_filter.mpr ⟨hv, ?_⟩
            rw [Bool.true_and, hfalse]
            rfl
          have hvlink : v.driveLink ≠ "" := by
            obtain ⟨f, -, rfl⟩ := List.mem_map.mp hv
            exact shareableLink_ne_empty f.id
          rw [Bool.or_eq_true]
          refine Or.inr ?_
          rw [contains_iff_mem]
          simp only [getExistingVideosFromNotion, htake2]
          rw [List.filterMap_append]
          refine List.mem_append_right _ ?_
          refine List.mem_filterMap.mpr ⟨createPage v, ?_, ?_⟩
          · rw [hC]
            exact List.mem_map.mpr ⟨v, hvmem, rfl⟩
          · simp [createPage, hvlink]
      rw [Bool.true_and, hAB]
      simp
    simp [syncVideos, h1, hnew2, defaultSyncOptions]

set_option maxRecDepth 100000 in
/-- Witness for C7: a first pass over one item and an empty store yields a
one-record store, well inside the 100-record page, so the second pass
creates nothing. -/
theorem c7_witness :
    (syncVideos [ { id := "id1", name := "Sermon.mp4" } ]
      ((syncVideos [ { id := "id1", name := "Sermon.mp4" } ] [] defaultSyncOptions).store)
      defaultSyncOptions).added = 0 :=
  c7_reconciler_idempotent_amended [ { id := "id1", name := "Sermon.mp4" } ] [] (by decide)

set_option maxRecDepth 100000 in
/-- Claim C8 (corrected), counterexample: a preview-mode pipeline run over
an empty store and a one-item Drive folder still executes the sync phase
(spawned without any dry-run flag), which creates a record: the store
grows from zero to one record titled `Sermon 1` even though preview mode
is on, contradicting `no record is created`. -/
theorem c8_preview_creates_record_counterexample :
    ((runPipeline true true { drive := [ { id := "id1", name := "Sermon 1.mp4" } ], store := [] }
        0).1.store.map fun p => p.title) = ["Sermon 1"]
    ∧ (runPipeline true true { drive := [ { id := "id1", name := "Sermon 1.mp4" } ], store := [] }
        0).2 = (true, "")
    ∧ ({ drive := [ { id := "id1", name := "Sermon 1.mp4" } ], store := [] } : World).store
        = [] := by
  refine ⟨by decide, by decide, by decide⟩

/-- Claim C8 (corrected, amended): in preview mode the pipeline stops
after the selection phase as far as the per-record work is concerned — no
asset is fetched (local files unchanged), nothing is published, the
hand-off temp data is cleared, and every pre-existing record is left
unchanged (the prior store is a prefix of the resulting store); however,
the reconciliation phase still runs when sync is enabled and may append
newly created records to the store. -/
theorem c8_preview_frame_amended (sync : Bool) (w : World) (now : Int) :
    (runPipeline true sync w now).1.localFiles = w.localFiles
    ∧ (runPipeline true sync w now).1.published = w.published
    ∧ (runPipeline true sync w now).1.store.take w.store.length = w.store := by
  by_cases hs : sync = true
  · have happ := sync_store_append w.drive w.store defaultSyncOptions
    have htake : (syncVideos w.drive w.store defaultSyncOptions).store.take w.store.length
        = w.store := by
      rw [happ]
      exact List.take_left w.store _
    cases hsel : getNextVideoForUpload ((syncVideos w.drive w.store defaultSyncOptions).store) with
    | none => simp [runPipeline, hs, hsel, htake]
    | some sel => simp [runPipeline, hs, hsel, htake]
  · cases hsel : getNextVideoForUpload w.store with
    | none => simp [runPipeline, hs, hsel, List.take_length]
    | some sel => simp [runPipeline, hs, hsel, List.take_length]

/-- Claim C9 (confirmed): the duplicate-suppression lookup is built from
at most the first 100 records of a single store query — it is literally
the lookup over `store.take 100` — and consequently the records a sync
pass creates, and its created count, are the same as if the store held
only its first 100 records: titles and links of records beyond the first
page never enter the lookup and never cause an item to be treated as
already registered. -/
theorem c9_lookup_first_page_only (files : List DriveFile) (store : List NotionPage)
    (opts : SyncOptions) :
    getExistingVideosFromNotion store = getExistingVideosFromNotion (store.take 100)
    ∧ (syncVideos files store opts).added = (syncVideos files (store.take 100) opts).added
    ∧ (syncVideos files store opts).created = (syncVideos files (store.take 100) opts).created := by
  have hsets : getExistingVideosFromNotion store = getExistingVideosFromNotion (store.take 100) := by
    simp [getExistingVideosFromNotion, List.take_take]
  refine ⟨hsets, ?_, ?_⟩ <;>
  · by_cases h1 : (files.map processDriveFile).isEmpty
    · simp [syncVideos, h1]
    · by_cases h2 : (filterNew (files.map processDriveFile) (getExistingVideosFromNotion store)
          opts.skipExisting).isEmpty
      · simp [syncVideos, h1, h2, ← hsets]
      · simp [syncVideos, h1, h2, ← hsets]

/-- Claim C10 (confirmed): whenever a URL pattern matcher extracts an
identifier, `extractAndValidateDriveId` throws (returns `none`) exactly
when that identifier is shorter than 20 characters or contains a
character outside letters, digits, hyphen and underscore, and otherwise
returns exactly the identifier extracted by the first matching pattern. -/
theorem c10_extract_and_validate_drive_id_spec (link id : String)
    (h : extractFileIdFromUrl link = some id) :
    extractAndValidateDriveId link =
      if id.length < 20 ∨ id.data.all isIdChar = false then none else some id := by
  simp only [extractAndValidateDriveId, h]
  by_cases h20 : id.length < 20
  · simp [h20]
  · have hne : id ≠ "" := by
      intro he
      rw [he] at h20
      simp [String.length] at h20
    have hdat : id.data ≠ [] := by
      intro hd
      exact hne (String.ext hd)
    by_cases hall : id.data.all isIdChar
    · simp [h20, hne, hall, List.isEmpty_iff, hdat]
    · simp [h20, hne, hall, List.isEmpty_iff, hdat]

set_option maxRecDepth 100000 in
/-- Witness for C10: a shareable-link URL with a 20-character identifier;
the extractor finds it and the validator returns it unchanged. -/
theorem c10_witness :
    extractFileIdFromUrl "https://drive.google.com/file/d/AAAAAAAAAAAAAAAAAAAA/view"
      = some "AAAAAAAAAAAAAAAAAAAA"
    ∧ extractAndValidateDriveId "https://drive.google.com/file/d/AAAAAAAAAAAAAAAAAAAA/view" =
        (if ("AAAAAAAAAAAAAAAAAAAA" : String).length < 20
            ∨ ("AAAAAAAAAAAAAAAAAAAA" : String).data.all isIdChar = false then none
         else some "AAAAAAAAAAAAAAAAAAAA") :=
  ⟨by decide,
   c10_extract_and_validate_drive_id_spec
    "https://drive.google.com/file/d/AAAAAAAAAAAAAAAAAAAA/view" "AAAAAAAAAAAAAAAAAAAA"
    (by decide)⟩
